import Mathlib

/-!
Shallow embedding of the go-marathon application module
(`src/application.go`), covering the health aggregation logic
(`AllTaskRunning`, `ApplicationOK`) and the deployment-wait polling
protocol (`WaitOnApplication`).

Go nil-able slices are modelled as `Option (List _)` (a `none` is a Go
nil slice, a `some []` is a present-but-empty slice); nil pointers inside
a slice are the inner `Option`.  Go `(value, error)` pairs are `Except`.
Remote calls are modelled by passing their outcome in as data: a poll
environment supplies, for each iteration, the outcome of the list call
and of the application fetch.
-/

namespace Marathon

/-- Error values crossing the client API, standing in for the Go `error`
results: `ErrInvalidArgument`, `ErrDoesNotExist` (defined elsewhere in the
package) and any transient remote/transport failure. -/
inductive ApiError where
  | invalidArgument
  | doesNotExist
  | transient
deriving DecidableEq, Repr

/-- Modelled from the spec: a `HealthCheckResult` entry of a task
(`tasks.go` is outside the provided source).  `application.go` reads only
its `Alive` field (line 375), and the spec describes the tri-state
Alive/NotAlive/Unknown where Unknown is a nil slot, so the record carries
the `Alive` flag; the Unknown case is the `Option` wrapper at use sites. -/
structure HealthCheckResult where
  Alive : Bool
deriving DecidableEq, Repr

/-- Modelled from the spec: the `TaskState` of an application snapshot
(`tasks.go` is outside the provided source).  `application.go` reads only
`task.HealthCheckResult`, a nil-able slice of nil-able pointers
(lines 368-379): an ordered sequence of health-check slots, where the
whole sequence may be absent for a poll and each slot may be absent. -/
structure Task where
  ID : String := ""
  HealthCheckResult : Option (List (Option Marathon.HealthCheckResult)) := none
deriving DecidableEq, Repr

/-- Modelled from the spec: a configured `HealthCheckSpec`
(`healthcheck.go` is outside the provided source).  `application.go` only
ever tests the health-check slice for nil-ness and length, so the spec
fields are carried but never read by the embedded functions. -/
structure HealthCheck where
  Protocol : String := "HTTP"
  Path : String := ""
  IntervalSeconds : Int := 0
  PortIndex : Int := 0
deriving DecidableEq, Repr

/-- The `Application` snapshot (src/application.go lines 39-72), restricted
to the fields read by `AllTaskRunning` and `ApplicationOK`: `ID`,
`Instances` (desired instance count), `TasksRunning` (reported running
count), `HealthChecks` and `Tasks` (both nil-able slices).  The remaining
struct fields are never read by the embedded operations. -/
structure Application where
  ID : String := ""
  HealthChecks : Option (List HealthCheck) := none
  Instances : Int := 0
  Tasks : Option (List Task) := none
  TasksRunning : Int := 0
deriving DecidableEq, Repr

/-- `Application.AllTaskRunning` (src/application.go lines 120-131):
true when `Instances == 0`; otherwise false when the task list is nil;
otherwise true exactly when the reported `TasksRunning` equals
`Instances`. -/
def Application.AllTaskRunning (r : Application) : Bool :=
  if r.Instances = 0 then true
  else
    match r.Tasks with
    | none => false
    | some _ => if r.TasksRunning = r.Instances then true else false

/-- The body of the per-task loop of `ApplicationOK`
(src/application.go lines 368-379): a task whose whole
`HealthCheckResult` slice is nil is skipped (contributes `true`); inside
a present slice, a nil slot or a slot with `Alive == false` fails. -/
def Task.checkResultsOK (task : Task) : Bool :=
  match task.HealthCheckResult with
  | none => true
  | some checks =>
      checks.all fun check =>
        match check with
        | none => false
        | some c => c.Alive

/-- The test `application.HealthChecks == nil || len(application.HealthChecks) <= 0`
(src/application.go line 363). -/
def Application.HealthChecksNilOrEmpty (application : Application) : Bool :=
  match application.HealthChecks with
  | none => true
  | some l => decide (l.length ≤ 0)

/-- The evaluation `ApplicationOK` performs on a fetched snapshot
(src/application.go lines 357-382): `false` unless `AllTaskRunning`;
`true` when no health checks are configured; otherwise the per-task scan
over the (nil treated as empty) task list. -/
def ApplicationOKVerdict (application : Application) : Bool :=
  if !application.AllTaskRunning then false
  else if application.HealthChecksNilOrEmpty then true
  else (application.Tasks.getD []).all Task.checkResultsOK

/-- `HasApplication` (src/application.go lines 448-463): an empty name is
`ErrInvalidArgument`; a failed listing propagates its error; otherwise
true exactly when the listed ids contain the name.  The outcome of the
remote `ListApplications` call is passed in as `listResult`. -/
def HasApplication (name : String)
    (listResult : Except ApiError (List String)) : Except ApiError Bool :=
  if name = "" then .error .invalidArgument
  else
    match listResult with
    | .error e => .error e
    | .ok ids => .ok (ids.contains name)

/-- `ApplicationOK` (src/application.go lines 343-383): propagate an
existence-check error, return `ErrDoesNotExist` when the application is
not found, propagate a fetch error, and otherwise evaluate the snapshot
(`ApplicationOKVerdict`).  The outcomes of the two remote calls are
passed in as `listResult` and `fetchResult`. -/
def ApplicationOK (name : String)
    (listResult : Except ApiError (List String))
    (fetchResult : Except ApiError Application) : Except ApiError Bool :=
  match HasApplication name listResult with
  | .error e => .error e
  | .ok found =>
      if !found then .error .doesNotExist
      else
        match fetchResult with
        | .error e => .error e
        | .ok application => .ok (ApplicationOKVerdict application)

/-- The outcomes of the two remote calls one iteration of the
`WaitOnApplication` poll loop can make: the application listing behind
`HasApplication`, and the snapshot fetch behind `Application`. -/
structure PollStep where
  listApplications : Except ApiError (List String)
  fetchApplication : Except ApiError Application

/-- Observable events of one run of the poll loop: a remote request
(a `HasApplication` listing or an `Application` fetch), and the fixed
`time.Sleep(500 * time.Millisecond)` at the bottom of the loop body. -/
inductive PollEvent where
  | remoteRequest
  | sleepInterval
deriving DecidableEq, Repr

/-- How a run of the poll-loop body ends.  The Go closure passed to
`deadline` has type `func(chan bool) error`, so its signature admits
returning any error (`failed e`); `ready` and `stopped` are its two
`return nil` sites (all tasks running, or the stop switch flipped), and
`fuelOut` marks a run still looping when the observation bound (fuel) is
exhausted — in the real system the deadline then reports a timeout. -/
inductive WaitResult where
  | ready
  | stopped
  | fuelOut
  | failed (e : ApiError)
deriving DecidableEq, Repr

/-- The poll loop of `WaitOnApplication` (src/application.go lines
431-440), instrumented with its event trace.  Iteration `i` first reads
the stop switch (`flick.IsSwitched()`); then calls `HasApplication`: on
error the Go `continue` retries immediately — no sleep event; when found,
it fetches the snapshot and returns success if the fetch succeeded and
`AllTaskRunning` holds; every other path falls through to the 500 ms
sleep before the next iteration.  `env i` gives the remote outcomes of
iteration `i`, `switched i` the stop switch; `fuel` bounds the number of
iterations observed. -/
def pollLoopTrace (env : Nat → PollStep) (switched : Nat → Bool)
    (name : String) : Nat → Nat → List PollEvent × WaitResult
  | 0, _ => ([], .fuelOut)
  | fuel + 1, i =>
    if switched i then ([], .stopped)
    else
      match HasApplication name (env i).listApplications with
      | .error _ =>
          let rest := pollLoopTrace env switched name fuel (i + 1)
          (.remoteRequest :: rest.1, rest.2)
      | .ok found =>
          if found then
            match (env i).fetchApplication with
            | .ok app =>
                if app.AllTaskRunning then
                  ([.remoteRequest, .remoteRequest], .ready)
                else
                  let rest := pollLoopTrace env switched name fuel (i + 1)
                  (.remoteRequest :: .remoteRequest :: .sleepInterval :: rest.1,
                    rest.2)
            | .error _ =>
                let rest := pollLoopTrace env switched name fuel (i + 1)
                (.remoteRequest :: .remoteRequest :: .sleepInterval :: rest.1,
                  rest.2)
          else
            let rest := pollLoopTrace env switched name fuel (i + 1)
            (.remoteRequest :: .sleepInterval :: rest.1, rest.2)

/-- The client configuration field read by `WaitOnApplication`
(`r.config.DefaultDeploymentTimeout`); the config type lives outside the
provided source, the spec calls it the process-wide configured default
deployment timeout. -/
structure Config where
  DefaultDeploymentTimeout : Int

/-- `WaitOnApplication` (src/application.go lines 415-444): a timeout
`<= 0` is replaced by the configured default deployment timeout before
the wait starts; the (possibly substituted) timeout is then handed to the
bounded-wait primitive (`deadline`, defined outside the provided source;
modelled from the spec as an arbitrary function `runBounded` from the
effective timeout to the outcome of running the poll loop under it). -/
def WaitOnApplication (config : Config) (timeout : Int)
    (runBounded : Int → WaitResult) : WaitResult :=
  let t := if timeout ≤ 0 then config.DefaultDeploymentTimeout else timeout
  runBounded t

/-! Concrete snapshots and poll environments used by the theorems below. -/

/-- A scaled-to-zero application that still has a configured health check
and a task reporting a dead check result. -/
def c1App : Application :=
  { Instances := 0, HealthChecks := some [{}],
    Tasks := some [{ ID := "t", HealthCheckResult := some [some ⟨false⟩] }] }

/-- Instance parity and a configured check; task `t1` is fully alive and
task `t0` has a nil health-check result list for this poll. -/
def c2App : Application :=
  { Instances := 2, TasksRunning := 2, HealthChecks := some [{}],
    Tasks := some [{ ID := "t1", HealthCheckResult := some [some ⟨true⟩] },
                   { ID := "t0", HealthCheckResult := none }] }

/-- Instance parity, one configured check, both tasks fully alive. -/
def c3App : Application :=
  { Instances := 2, TasksRunning := 2, HealthChecks := some [{}],
    Tasks := some [{ ID := "t1", HealthCheckResult := some [some ⟨true⟩] },
                   { ID := "t2", HealthCheckResult := some [some ⟨true⟩] }] }

/-- The spec scenario: desired 3 instances, 2 reported running, with a
configured health check. -/
def c4App : Application :=
  { Instances := 3, TasksRunning := 2, HealthChecks := some [{}],
    Tasks := some [{ ID := "t1" }, { ID := "t2" }] }

/-- No configured health checks, parity between desired and running. -/
def c5App : Application :=
  { Instances := 2, TasksRunning := 2, HealthChecks := none,
    Tasks := some [{ ID := "t1" }, { ID := "t2" }] }

/-- Positive desired count with a present-but-empty task list whose
reported running count matches the desired count. -/
def c6App : Application :=
  { Instances := 1, TasksRunning := 1, Tasks := some [] }

/-- A nil task list with positive desired count. -/
def c6NilApp : Application :=
  { Instances := 2, TasksRunning := 2, Tasks := none }

/-- Instance parity holds but the single task reports a dead check. -/
def c7App : Application :=
  { ID := "web", Instances := 1, TasksRunning := 1, HealthChecks := some [{}],
    Tasks := some [{ ID := "t", HealthCheckResult := some [some ⟨false⟩] }] }

/-- A poll environment whose listing finds `web` and whose fetch returns
`c7App`. -/
def c7Step : PollStep := ⟨.ok ["web"], .ok c7App⟩

/-- A bounded-wait runner that distinguishes the timeout it was given. -/
def c8Run : Int → WaitResult :=
  fun t => if 0 < t then .ready else .stopped

/-- A poll environment whose every remote call fails transiently. -/
def c9Env : Nat → PollStep :=
  fun _ => ⟨.error .transient, .error .transient⟩

/-- A poll environment whose every remote call fails transiently. -/
def c10ErrEnv : Nat → PollStep :=
  fun _ => ⟨.error .transient, .error .transient⟩

/-- A poll environment whose listing succeeds but never contains the
polled name. -/
def c10NotFoundEnv : Nat → PollStep :=
  fun _ => ⟨.ok [], .ok {}⟩

/-! Theorems for the claims. -/

/-- C1 counterexample: a snapshot with desired instance count 0 but a
configured health check and a dead check result makes `ApplicationOK`
return `(false, nil)`, not the Ready verdict `(true, nil)` the claim
demands regardless of health checks and their results. -/
theorem c1_counterexample :
    c1App.Instances = 0 ∧
    ApplicationOK "web" (.ok ["web"]) (.ok c1App) = .ok false := by
  exact ⟨rfl, rfl⟩

/-- C1 (amended): for a snapshot with desired instance count 0, the
instance-parity stage (`AllTaskRunning`) passes regardless of the task
list and running count, and `ApplicationOK`'s snapshot verdict is Ready
exactly when no health checks are configured or the per-task scan over
the task list passes. -/
theorem c1_zero_instances_amended (app : Application)
    (h0 : app.Instances = 0) :
    app.AllTaskRunning = true ∧
    (ApplicationOKVerdict app = true ↔
      (app.HealthChecksNilOrEmpty = true ∨
        (app.Tasks.getD []).all Task.checkResultsOK = true)) := by
  have hrun : app.AllTaskRunning = true := by
    simp [Application.AllTaskRunning, h0]
  refine ⟨hrun, ?_⟩
  simp only [ApplicationOKVerdict, hrun, Bool.not_true, Bool.false_eq_true,
    if_false]
  cases h : app.HealthChecksNilOrEmpty <;> simp

/-- C1 witness: the amended statement evaluated on `c1App`. -/
theorem c1_zero_instances_witness :
    c1App.AllTaskRunning = true ∧
    (ApplicationOKVerdict c1App = true ↔
      (c1App.HealthChecksNilOrEmpty = true ∨
        (c1App.Tasks.getD []).all Task.checkResultsOK = true)) :=
  c1_zero_instances_amended c1App rfl

/-- C4: with positive desired count, a present task list and a reported
running count different from the desired count, `AllTaskRunning` is false
and the snapshot verdict is NotReady, for every health-check
configuration (the snapshot is arbitrary apart from the hypotheses); and
the verdict stays false when the task list is replaced by any other
present list, showing the comparison reads the reported `TasksRunning`
field, not a recount of the tasks. -/
theorem c4_count_parity_required (app : Application)
    (hpos : 0 < app.Instances) (hts : app.Tasks ≠ none)
    (hneq : app.TasksRunning ≠ app.Instances) :
    app.AllTaskRunning = false ∧ ApplicationOKVerdict app = false ∧
    ∀ ts : List Task,
      Application.AllTaskRunning { app with Tasks := some ts } = false := by
  have h0 : ¬ app.Instances = 0 := by omega
  obtain ⟨ts, hts'⟩ : ∃ ts, app.Tasks = some ts := by
    cases h : app.Tasks with
    | none => exact absurd h hts
    | some ts => exact ⟨ts, rfl⟩
  have hrun : app.AllTaskRunning = false := by
    simp [Application.AllTaskRunning, h0, hts', hneq]
  refine ⟨hrun, ?_, ?_⟩
  · simp [ApplicationOKVerdict, hrun]
  · intro ts'
    simp [Application.AllTaskRunning, h0, hneq]

/-- C4 witness: the spec scenario (desired 3, running 2) through the
theorem. -/
theorem c4_count_parity_witness :
    c4App.AllTaskRunning = false ∧ ApplicationOKVerdict c4App = false ∧
    ∀ ts : List Task,
      Application.AllTaskRunning { c4App with Tasks := some ts } = false :=
  c4_count_parity_required c4App (by decide) (by decide) (by decide)

/-- C5: with no configured health checks (nil or empty), positive desired
count, a present task list and parity between reported running count and
desired count, the snapshot verdict is Ready and the full
`ApplicationOK` call returns `(true, nil)`. -/
theorem c5_no_health_checks_ready (app : Application) (name : String)
    (hname : name ≠ "") (hhc : app.HealthChecksNilOrEmpty = true)
    (hpos : 0 < app.Instances) (hts : app.Tasks ≠ none)
    (heq : app.TasksRunning = app.Instances) :
    ApplicationOKVerdict app = true ∧
    ApplicationOK name (.ok [name]) (.ok app) = .ok true := by
  have h0 : ¬ app.Instances = 0 := by omega
  obtain ⟨ts, hts'⟩ : ∃ ts, app.Tasks = some ts := by
    cases h : app.Tasks with
    | none => exact absurd h hts
    | some ts => exact ⟨ts, rfl⟩
  have hrun : app.AllTaskRunning = true := by
    simp [Application.AllTaskRunning, h0, hts', heq]
  have hok : ApplicationOKVerdict app = true := by
    simp [ApplicationOKVerdict, hrun, hhc]
  refine ⟨hok, ?_⟩
  simp [ApplicationOK, HasApplication, hname, hok]

/-- C5 witness: the theorem evaluated on `c5App`. -/
theorem c5_no_health_checks_witness :
    ApplicationOKVerdict c5App = true ∧
    ApplicationOK "web" (.ok ["web"]) (.ok c5App) = .ok true :=
  c5_no_health_checks_ready c5App "web" (by decide) (by decide) (by decide)
    (by decide) (by decide)

/-- C6 counterexample: a snapshot with positive desired count and a
present-but-empty task list whose reported running count equals the
desired count passes `AllTaskRunning` and gets the Ready verdict,
contradicting the claim that an empty-or-absent task list always yields
NotReady. -/
theorem c6_counterexample :
    0 < c6App.Instances ∧ c6App.Tasks = some [] ∧
    c6App.AllTaskRunning = true ∧
    ApplicationOK "web" (.ok ["web"]) (.ok c6App) = .ok true := by
  exact ⟨by decide, rfl, rfl, rfl⟩

/-- C6 (amended): only an absent (nil) task list forces NotReady
regardless of the reported running count; a present-but-empty task list
falls through to the running-count comparison, so `AllTaskRunning` then
equals the parity test (or the zero-instance shortcut). -/
theorem c6_absent_tasks_amended :
    (∀ app : Application, 0 < app.Instances → app.Tasks = none →
      app.AllTaskRunning = false ∧ ApplicationOKVerdict app = false) ∧
    (∀ app : Application, app.Tasks = some ([] : List Task) →
      app.AllTaskRunning =
        (decide (app.Instances = 0) ||
          decide (app.TasksRunning = app.Instances))) := by
  constructor
  · intro app hpos hnil
    have h0 : ¬ app.Instances = 0 := by omega
    have hrun : app.AllTaskRunning = false := by
      simp [Application.AllTaskRunning, h0, hnil]
    exact ⟨hrun, by simp [ApplicationOKVerdict, hrun]⟩
  · intro app h
    by_cases h0 : app.Instances = 0 <;>
      by_cases h1 : app.TasksRunning = app.Instances <;>
        simp [Application.AllTaskRunning, h, h0, h1]

/-- C6 witness: the amended statement's first part evaluated on a nil
task list. -/
theorem c6_absent_tasks_witness :
    c6NilApp.AllTaskRunning = false ∧ ApplicationOKVerdict c6NilApp = false :=
  c6_absent_tasks_amended.1 c6NilApp (by decide) rfl

/-- Characterisation of the per-task scan: it passes exactly when every
slot of the task's (present) result list is a live check; an absent (nil)
result list passes vacuously. -/
theorem checkResultsOK_eq_true_iff (t : Task) :
    Task.checkResultsOK t = true ↔
      ∀ l, t.HealthCheckResult = some l →
        ∀ c ∈ l, ∃ r, c = some r ∧ r.Alive = true := by
  cases h : t.HealthCheckResult with
  | none => simp [Task.checkResultsOK, h]
  | some checks =>
    simp only [Task.checkResultsOK, h, List.all_eq_true, Option.some.injEq]
    constructor
    · intro hall l hl
      subst hl
      intro c hc
      have := hall c hc
      cases c with
      | none => simp at this
      | some r => exact ⟨r, rfl, by simpa using this⟩
    · intro hall c hc
      obtain ⟨r, hr, ha⟩ := hall checks rfl c hc
      subst hr
      simpa using ha

/-- C2 counterexample: with a configured check, instance parity and the
other task fully alive, the task whose entire health-check result list is
absent for this poll is skipped, and `ApplicationOK` returns
`(true, nil)` — not the NotReady verdict the claim demands. -/
theorem c2_counterexample :
    c2App.AllTaskRunning = true ∧
    c2App.HealthChecksNilOrEmpty = false ∧
    (∃ t ∈ c2App.Tasks.getD [], t.HealthCheckResult = none) ∧
    ApplicationOK "web" (.ok ["web"]) (.ok c2App) = .ok true := by
  exact ⟨rfl, rfl, by decide, rfl⟩

/-- C2 (amended): a task whose entire result list is absent (nil) for the
poll is silently skipped by the scan — it counts as passing — so with
configured checks and instance parity the verdict is Ready whenever every
task either has an absent result list or passes its scan; only a nil slot
inside a present result list is treated as Unknown and fails that task's
scan. -/
theorem c2_nil_result_list_amended :
    (∀ t : Task, t.HealthCheckResult = none → Task.checkResultsOK t = true) ∧
    (∀ (t : Task) (l : List (Option HealthCheckResult)),
      t.HealthCheckResult = some l → none ∈ l →
      Task.checkResultsOK t = false) ∧
    (∀ app : Application, app.AllTaskRunning = true →
      app.HealthChecksNilOrEmpty = false →
      (∀ t ∈ app.Tasks.getD [],
        t.HealthCheckResult = none ∨ Task.checkResultsOK t = true) →
      ApplicationOKVerdict app = true) := by
  refine ⟨?_, ?_, ?_⟩
  · intro t h
    simp [Task.checkResultsOK, h]
  · intro t l h hmem
    by_contra hne
    have htrue : Task.checkResultsOK t = true := by
      cases hb : Task.checkResultsOK t with
      | false => exact absurd hb hne
      | true => rfl
    obtain ⟨r, hr, -⟩ := (checkResultsOK_eq_true_iff t).mp htrue l h none hmem
    exact Option.noConfusion hr
  · intro app hrun hhc hall
    simp only [ApplicationOKVerdict, hrun, Bool.not_true, Bool.false_eq_true,
      if_false, hhc, List.all_eq_true]
    intro t ht
    rcases hall t ht with h | h
    · simp [Task.checkResultsOK, h]
    · exact h

/-- C2 witness: the amended statement's last part evaluated on `c2App`,
whose second task has an absent result list. -/
theorem c2_nil_result_list_witness : ApplicationOKVerdict c2App = true :=
  c2_nil_result_list_amended.2.2 c2App rfl rfl (by decide)

/-- C3: with configured health checks and instance parity, the snapshot
verdict of `ApplicationOK` is Ready exactly when every slot of every
task's present health-check result list is a live (`Alive = true`)
result; hence any nil (Unknown) slot or dead slot anywhere makes the
verdict NotReady, however healthy the other slots and tasks are. -/
theorem c3_all_slots_alive (app : Application)
    (hhc : app.HealthChecksNilOrEmpty = false)
    (hrun : app.AllTaskRunning = true) :
    ApplicationOKVerdict app = true ↔
      ∀ t ∈ app.Tasks.getD [], ∀ l, t.HealthCheckResult = some l →
        ∀ c ∈ l, ∃ r, c = some r ∧ r.Alive = true := by
  simp only [ApplicationOKVerdict, hrun, Bool.not_true, Bool.false_eq_true,
    if_false, hhc, List.all_eq_true]
  constructor
  · intro h t ht
    exact (checkResultsOK_eq_true_iff t).mp (h t ht)
  · intro h t ht
    exact (checkResultsOK_eq_true_iff t).mpr (h t ht)

/-- C3 witness: the characterisation evaluated on `c3App`, whose slots
are all alive. -/
theorem c3_all_slots_alive_witness :
    ApplicationOKVerdict c3App = true ↔
      ∀ t ∈ c3App.Tasks.getD [], ∀ l, t.HealthCheckResult = some l →
        ∀ c ∈ l, ∃ r, c = some r ∧ r.Alive = true :=
  c3_all_slots_alive c3App rfl rfl

/-- The poll loop's result is never a surfaced error: the Go closure's
only `return` sites yield nil (ready, or stopped by the switch), and a
run cut off by the fuel bound is `fuelOut`. -/
theorem pollLoopTrace_snd_ne_failed (env : Nat → PollStep)
    (switched : Nat → Bool) (name : String) :
    ∀ fuel i (e : ApiError),
      (pollLoopTrace env switched name fuel i).2 ≠ .failed e := by
  intro fuel
  induction fuel with
  | zero =>
    intro i e h
    simp [pollLoopTrace] at h
  | succ n ih =>
    intro i e h
    rw [pollLoopTrace] at h
    split at h
    · simp at h
    · split at h
      · exact ih (i + 1) e h
      · split at h
        · split at h
          · split at h
            · simp at h
            · exact ih (i + 1) e h
          · exact ih (i + 1) e h
        · exact ih (i + 1) e h

/-- An iteration whose existence check errors retries immediately: its
outcome is that of the remaining loop started at the next iteration with
one unit of fuel used. -/
theorem pollLoopTrace_error_retries (env : Nat → PollStep)
    (switched : Nat → Bool) (name : String) (fuel i : Nat) (e : ApiError)
    (hsw : switched i = false)
    (herr : HasApplication name (env i).listApplications = .error e) :
    (pollLoopTrace env switched name (fuel + 1) i).2 =
      (pollLoopTrace env switched name fuel (i + 1)).2 := by
  rw [pollLoopTrace, hsw, herr]
  simp

/-- An iteration that finds the application, fetches the snapshot and
sees `AllTaskRunning` returns success at once. -/
theorem pollLoopTrace_parity_succeeds (env : Nat → PollStep)
    (switched : Nat → Bool) (name : String) (fuel i : Nat)
    (app : Application) (hsw : switched i = false)
    (hfound : HasApplication name (env i).listApplications = .ok true)
    (hfetch : (env i).fetchApplication = .ok app)
    (hrun : app.AllTaskRunning = true) :
    (pollLoopTrace env switched name (fuel + 1) i).2 = .ready := by
  rw [pollLoopTrace, hsw, hfound, hfetch]
  simp [hrun]

/-- C7: the deployment-wait success condition is instance-count parity
only — any iteration in which the application is listed, the fetch
succeeds and `AllTaskRunning` holds makes the poll loop return success —
and this is strictly weaker than the standalone health query: some
snapshot passes `AllTaskRunning` while `ApplicationOK`'s verdict on it is
NotReady. -/
theorem c7_wait_condition_parity_only :
    (∀ (env : Nat → PollStep) (switched : Nat → Bool) (name : String)
      (fuel i : Nat) (app : Application),
      switched i = false →
      HasApplication name (env i).listApplications = .ok true →
      (env i).fetchApplication = .ok app →
      app.AllTaskRunning = true →
      (pollLoopTrace env switched name (fuel + 1) i).2 = .ready) ∧
    ∃ app : Application,
      app.AllTaskRunning = true ∧ ApplicationOKVerdict app = false := by
  exact ⟨pollLoopTrace_parity_succeeds, c7App, rfl, rfl⟩

/-- C7 witness: with the environment serving `c7App` (parity holds, a
health check is dead), the wait loop succeeds on its first iteration
while the health query's verdict on the same snapshot is NotReady. -/
theorem c7_wait_condition_witness :
    (pollLoopTrace (fun _ => c7Step) (fun _ => false) "web" 1 0).2 =
      .ready ∧
    ApplicationOKVerdict c7App = false := by
  exact ⟨c7_wait_condition_parity_only.1 (fun _ => c7Step) (fun _ => false)
    "web" 0 0 c7App rfl rfl rfl rfl, rfl⟩

/-- C8: a non-positive timeout is substituted with the configured default
deployment timeout before the bounded wait starts, so the call is the
same as one made with the default timeout, and the bounded-wait primitive
is always invoked with the default in that case — never with "no
timeout". -/
theorem c8_default_timeout_substitution (config : Config) (timeout : Int)
    (h : timeout ≤ 0) (runBounded : Int → WaitResult) :
    WaitOnApplication config timeout runBounded =
      WaitOnApplication config config.DefaultDeploymentTimeout runBounded ∧
    WaitOnApplication config timeout runBounded =
      runBounded config.DefaultDeploymentTimeout := by
  unfold WaitOnApplication
  simp [h, ite_self]

/-- C8 witness: the substitution at timeout 0 with a 600000 ms default
and a runner that distinguishes the timeout it receives. -/
theorem c8_default_timeout_witness :
    WaitOnApplication ⟨600000⟩ 0 c8Run =
      WaitOnApplication ⟨600000⟩ (600000 : Int) c8Run ∧
    WaitOnApplication ⟨600000⟩ 0 c8Run = c8Run 600000 :=
  c8_default_timeout_substitution ⟨600000⟩ 0 (by decide) c8Run

/-- C9: transient fetch errors are swallowed by the poll loop — the loop
never ends in a surfaced error (its outcome is success, stop/cancel, or
running out of its bound), and an iteration whose existence check errors
simply retries from the next iteration. -/
theorem c9_transient_errors_swallowed :
    (∀ (env : Nat → PollStep) (switched : Nat → Bool) (name : String)
      (fuel i : Nat) (e : ApiError),
      (pollLoopTrace env switched name fuel i).2 ≠ .failed e) ∧
    (∀ (env : Nat → PollStep) (switched : Nat → Bool) (name : String)
      (fuel i : Nat) (e : ApiError),
      switched i = false →
      HasApplication name (env i).listApplications = .error e →
      (pollLoopTrace env switched name (fuel + 1) i).2 =
        (pollLoopTrace env switched name fuel (i + 1)).2) := by
  exact ⟨fun env switched name => pollLoopTrace_snd_ne_failed env switched name,
    fun env switched name => pollLoopTrace_error_retries env switched name⟩

/-- C9 witness: under an always-erroring environment the first iteration
retries rather than surfacing the error, and the run's outcome is not a
surfaced error. -/
theorem c9_transient_errors_witness :
    (pollLoopTrace c9Env (fun _ => false) "web" 2 0).2 =
      (pollLoopTrace c9Env (fun _ => false) "web" 1 1).2 ∧
    (pollLoopTrace c9Env (fun _ => false) "web" 2 0).2 ≠
      .failed .transient := by
  exact ⟨c9_transient_errors_swallowed.2 c9Env (fun _ => false) "web" 1 0
    .transient rfl rfl,
    c9_transient_errors_swallowed.1 c9Env (fun _ => false) "web" 2 0
      .transient⟩

/-- C10 (code bug): an iteration whose existence check fails with a
transient error executes Go's `continue`, skipping the 500 ms sleep at
the bottom of the loop body — under a persistently erroring environment
two consecutive remote requests are issued with no sleep between them
(a busy spin), whereas a not-found iteration does sleep before
retrying. -/
theorem c10_error_iteration_skips_sleep :
    pollLoopTrace c10ErrEnv (fun _ => false) "web" 2 0 =
      ([.remoteRequest, .remoteRequest], .fuelOut) ∧
    pollLoopTrace c10NotFoundEnv (fun _ => false) "web" 2 0 =
      ([.remoteRequest, .sleepInterval, .remoteRequest, .sleepInterval],
        .fuelOut) := by
  exact ⟨rfl, rfl⟩

end Marathon
